import Mathlib

/-!
Verification of the TianGong AI Workspace MCP command layer.

The definitions below shallowly embed `src/tiangong_ai_workspace/cli.py`:
the `mcp services`, `mcp tools` and `mcp invoke` commands, together with
the configuration-loading helper `_load_mcp_configs`.  Effects are made
explicit: the outcome of `load_secrets` is a parameter (`LoadResult`),
JSON parsing, file reading and the MCP client calls are parameters
(oracle functions), and `typer.Exit(code=n)` together with its error
message becomes the `exit` constructor of an outcome type.  Components
of the repository that live outside the provided sources
(`mcp_client.py`, `secrets.py`) are modelled from the specification and
marked as such in their doc comments.
-/

/-- One configured MCP service, as produced by `secrets.load_secrets`
(fields per the spec data model: name, transport, url, optional
credential material). -/
structure MCPServerSecrets where
  service_name : String
  transport : String
  url : String
  auth : Option String
deriving DecidableEq, Repr

/-- A JSON value, the result of `json.loads`. -/
inductive Json where
  | null
  | bool (b : Bool)
  | num (n : Int)
  | str (s : String)
  | arr (elems : List Json)
  | obj (fields : List (String × Json))

/-- Outcome of `secrets.load_secrets()` as observed by `cli.py`:
it may raise `FileNotFoundError`, raise some other (uncaught) parse
error, or return a store whose `mcp_servers` mapping is embedded as an
association list in insertion order. -/
inductive LoadResult where
  | fileNotFound (msg : String)
  | parseFailure (msg : String)
  | ok (servers : List (String × MCPServerSecrets))

/-- Outcome of a CLI command body: `typer.Exit(code)` preceded by an
error message, an uncaught Python exception, or a normal return. -/
inductive CmdOutcome (α : Type) where
  | exit (code : Nat) (msg : String)
  | uncaught (msg : String)
  | ok (a : α)

/-- The keys of the loaded mapping (`secrets.mcp_servers` dict keys). -/
def configKeys (configs : List (String × MCPServerSecrets)) : List String :=
  configs.map Prod.fst

/-- `service_name in configs` membership test on the mapping keys. -/
def hasService (configs : List (String × MCPServerSecrets)) (name : String) : Bool :=
  (configKeys configs).contains name

/-- `", ".join(sorted(configs)) or "none"`: the known service names,
sorted, comma-joined, with `"none"` replacing the empty join. -/
def availableNames (configs : List (String × MCPServerSecrets)) : String :=
  let joined := String.intercalate ", " ((configKeys configs).mergeSort (fun a b => decide (a ≤ b)))
  if joined = "" then "none" else joined

/-- The message printed when a requested service is absent from the
loaded mapping (identical text in `list_mcp_tools` and
`invoke_mcp_tool`). -/
def unknownServiceMessage (service_name : String) (configs : List (String × MCPServerSecrets)) : String :=
  "Service \x27" ++ service_name ++ "\x27 not found. Available: " ++ availableNames configs

/-- The message printed by `_load_mcp_configs` when the secrets store
holds no `*_mcp` section. -/
def noServicesMessage (secretsPath : String) : String :=
  "No MCP services configured in " ++ secretsPath ++ ". Populate a *_mcp section (see `.sercrets/secrets.example.toml`)."

/-- `_load_mcp_configs`: surface `FileNotFoundError` as exit code 2,
an empty `mcp_servers` mapping as exit code 3, and return the mapping
otherwise.  Any other exception from `load_secrets` propagates. -/
def load_mcp_configs (load : LoadResult) (secretsPath : String) :
    CmdOutcome (List (String × MCPServerSecrets)) :=
  match load with
  | .fileNotFound msg => .exit 2 msg
  | .parseFailure msg => .uncaught msg
  | .ok servers =>
    if servers.isEmpty then
      .exit 3 (noServicesMessage secretsPath)
    else
      .ok servers

/-- One line of the `mcp services` listing: name, transport and url of
a configured service. -/
def renderServiceLine (s : MCPServerSecrets) : String :=
  "- " ++ s.service_name ++ " (" ++ s.transport ++ ") -> " ++ s.url

/-- `list_mcp_services`: load the configuration and print one line per
configured service. -/
def list_mcp_services (load : LoadResult) (secretsPath : String) :
    CmdOutcome (List String) :=
  match load_mcp_configs load secretsPath with
  | .exit c m => .exit c m
  | .uncaught m => .uncaught m
  | .ok configs =>
    .ok ("Configured MCP services:" :: configs.map (fun kv => renderServiceLine kv.2))

/-- A tool advertised by a service (`description` is the empty string
when the attribute is missing or empty, mirroring
`getattr(tool, "description", "") or ""`). -/
structure MCPTool where
  name : String
  description : String
deriving DecidableEq, Repr

/-- One line of the `mcp tools` listing. -/
def renderToolLine (t : MCPTool) : String :=
  if t.description ≠ "" then
    "- " ++ t.name ++ ": " ++ t.description
  else
    "- " ++ t.name

/-- `list_mcp_tools`: load the configuration, reject unknown service
names with exit code 4, otherwise consult the client (embedded as the
oracle `listTools`, whose exceptions propagate) and render the result. -/
def list_mcp_tools (load : LoadResult) (secretsPath : String)
    (listTools : String → Except String (List MCPTool)) (service_name : String) :
    CmdOutcome (List String) :=
  match load_mcp_configs load secretsPath with
  | .exit c m => .exit c m
  | .uncaught m => .uncaught m
  | .ok configs =>
    if !(hasService configs service_name) then
      .exit 4 (unknownServiceMessage service_name configs)
    else
      match listTools service_name with
      | .error e => .uncaught e
      | .ok tools =>
        if tools.isEmpty then
          .ok ["No tools advertised by service \x27" ++ service_name ++ "\x27."]
        else
          .ok (("Tools available on \x27" ++ service_name ++ "\x27:") :: tools.map renderToolLine)

/-- Python truthiness of the `--args` option (`Optional[str]`): truthy
exactly when present and non-empty. -/
def truthyOptStr : Option String → Bool
  | none => false
  | some s => s != ""

/-- Python truthiness of the `--args-file` option (`Optional[Path]`):
`Path` objects are always truthy, so this tests presence only. -/
def truthyOptPath : Option String → Bool
  | none => false
  | some _ => true

/-- The argument-payload computation of `invoke_mcp_tool`: parse
`--args` when truthy, else read and parse `--args-file` when truthy,
else default to the empty object.  Errors carry the exit code and the
message of the corresponding `typer.Exit` branch (6: bad inline JSON,
7: bad JSON in the file, 8: file unreadable). -/
def payloadOf (jsonParse : String → Except String Json)
    (readFile : String → Except String String)
    (args : Option String) (args_file : Option String) :
    Except (Nat × String) Json :=
  if truthyOptStr args then
    match args with
    | some s =>
      match jsonParse s with
      | .ok j => .ok j
      | .error e => .error (6, "Invalid JSON for --args: " ++ e)
    | none => .ok (Json.obj [])
  else if truthyOptPath args_file then
    match args_file with
    | some f =>
      match readFile f with
      | .ok contents =>
        match jsonParse contents with
        | .ok j => .ok j
        | .error e => .error (7, "Invalid JSON in file " ++ f ++ ": " ++ e)
      | .error e => .error (8, "Failed to read arguments file " ++ f ++ ": " ++ e)
    | none => .ok (Json.obj [])
  else
    .ok (Json.obj [])

/-- Outcome of the `mcp invoke` command: an exit with code and
message, an uncaught exception, or the primary result and attachments
echoed on success. -/
inductive InvokeOutcome where
  | exit (code : Nat) (msg : String)
  | uncaught (msg : String)
  | done (primary : Json) (attachments : List Json)

/-- The final client step of `invoke_mcp_tool`: the result of
`client.invoke_tool` (an oracle value) mapped into the command
outcome; client exceptions propagate. -/
def clientStep (r : Except String (Json × List Json)) : InvokeOutcome :=
  match r with
  | .error e => .uncaught e
  | .ok (primary, attachments) => .done primary attachments

/-- `invoke_mcp_tool`: reject two truthy argument sources with exit
code 5, compute the payload, load the configuration, reject unknown
service names with exit code 9, then call the client (embedded as the
oracle `invokeTool`). -/
def invoke_mcp_tool (jsonParse : String → Except String Json)
    (readFile : String → Except String String)
    (load : LoadResult) (secretsPath : String)
    (invokeTool : String → String → Json → Except String (Json × List Json))
    (service_name tool_name : String)
    (args : Option String) (args_file : Option String) : InvokeOutcome :=
  if truthyOptStr args && truthyOptPath args_file then
    .exit 5 "Use either --args or --args-file, not both."
  else
    match payloadOf jsonParse readFile args args_file with
    | .error ec => .exit ec.1 ec.2
    | .ok payload =>
      match load_mcp_configs load secretsPath with
      | .exit c m => .exit c m
      | .uncaught m => .uncaught m
      | .ok configs =>
        if !(hasService configs service_name) then
          .exit 9 (unknownServiceMessage service_name configs)
        else
          clientStep (invokeTool service_name tool_name payload)

/-- Modelled from the spec: the connector bookkeeping of
`MCPToolClient` lives in `mcp_client.py`, which is not among the
provided sources.
Per the spec a connector owns an underlying process or socket and
reports whether it has been closed. -/
structure Connector where
  service : String
  closed : Bool
deriving DecidableEq, Repr

/-- Modelled from the spec: `close()` releases the resources of the
connector and is idempotent — closing an already-closed connector
must not raise, so it is a total function on connector states. -/
def Connector.close (c : Connector) : Connector :=
  { c with closed := true }

/-- Modelled from the spec: the mutable client state inside one
scope, i.e. the connectors opened so far (lazily, per addressed
service). -/
structure ClientState where
  opened : List Connector
deriving DecidableEq, Repr

/-- Modelled from the spec: the scope-exit action of `MCPToolClient`,
closing every connector opened during the scope. -/
def closeAll (s : ClientState) : ClientState :=
  { opened := s.opened.map Connector.close }

/-- Modelled from the spec: the `with MCPToolClient(...)` scope.  The
body is any computation on the client state that ends in a value or an
error; in both cases the final state is recorded, and the exit action
closes every opened connector before the outcome is returned to the
caller. -/
def runClientScope {E A : Type} (body : ClientState → Except E A × ClientState)
    (init : ClientState) : Except E A × ClientState :=
  let r := body init
  (r.1, closeAll r.2)

/-- Modelled from the spec: one item of a structured "content" list in
a raw tool response — a text-bearing item or a binary-reference
(blob) item. -/
inductive ContentItem where
  | text (s : String)
  | blob (data : String)
deriving DecidableEq, Repr

/-- Whether a content item is text-bearing. -/
def ContentItem.isText : ContentItem → Bool
  | .text _ => true
  | .blob _ => false

/-- Modelled from the spec: the raw transport response shapes the
normalizer distinguishes — a single unstructured textual payload, or
a structured payload with a designated "content" list. -/
inductive RawResponse where
  | plainText (s : String)
  | contentList (items : List ContentItem)
deriving DecidableEq, Repr

/-- Modelled from the spec: unrecognized response shapes fail with
`ProtocolError` rather than being guessed at. -/
inductive NormError where
  | protocolFailure
deriving DecidableEq, Repr

/-- Split a content list at its first text-bearing item: return that
item together with all remaining items in their original order. -/
def extractFirstText : List ContentItem → Option (ContentItem × List ContentItem)
  | [] => none
  | x :: xs =>
    if x.isText then
      some (x, xs)
    else
      match extractFirstText xs with
      | some (p, rest) => some (p, x :: rest)
      | none => none

/-- Modelled from the spec: the `ResultNormalizer` contract (absent
from the provided sources).  A single unstructured textual payload is
the primary value with no attachments; in a content list the first
text-bearing item becomes primary and every remaining item an
attachment in original order; a content list with no text-bearing
item is an unrecognized shape. -/
def normalizeResponse : RawResponse → Except NormError (ContentItem × List ContentItem)
  | .plainText s => .ok (.text s, [])
  | .contentList items =>
    match extractFirstText items with
    | some (p, rest) => .ok (p, rest)
    | none => .error .protocolFailure

/-- Concrete JSON-parsing oracle used in witnesses: accepts the empty
object text and rejects everything else with a parse message. -/
def jsonParseStub (s : String) : Except String Json :=
  if s = "\x7b\x7d" then .ok (Json.obj []) else .error ("could not parse: " ++ s)

/-- Concrete file-reading oracle used in witnesses: one readable file
with valid JSON, one with invalid JSON, everything else unreadable. -/
def readFileStub (f : String) : Except String String :=
  if f = "a.json" then .ok "\x7b\x7d"
  else if f = "bad.json" then .ok "notjson"
  else .error ("no such file: " ++ f)

/-- A concrete configured service used in witnesses. -/
def sampleService : MCPServerSecrets :=
  { service_name := "svc", transport := "http", url := "https://svc/mcp", auth := none }

/-- A concrete successful secrets-loading outcome with one service. -/
def loadStub : LoadResult := .ok [("svc", sampleService)]

/-- Concrete client invoke oracle used in witnesses; its result records
which service and tool were contacted. -/
def invokeToolStub (service tool : String) (_payload : Json) : Except String (Json × List Json) :=
  .ok (Json.str ("called " ++ service ++ "." ++ tool), [])

/-- Concrete client list-tools oracle used in witnesses. -/
def listToolsStub (_service : String) : Except String (List MCPTool) :=
  .ok [{ name := "query", description := "run a query" }]

/-- C2 counterexample: with `--args` supplied as the empty string and
`--args-file` supplied, both argument sources are given, yet the
invocation does not fail: the secrets are loaded and the service is
contacted (the successful outcome records the client call). -/
theorem c2_counterexample :
    invoke_mcp_tool jsonParseStub readFileStub loadStub "secrets.toml" invokeToolStub
      "svc" "echo" (some "") (some "a.json")
      = .done (Json.str "called svc.echo") [] := by
  rfl

/-- C2 (amended): whenever the inline `--args` value is a non-empty
string and `--args-file` is also supplied, the invocation exits with
code 5 and the both-sources message, uniformly in the JSON parser, the
file reader, the secrets-loading outcome and the client oracle — so
the rejection happens before any secrets loading or service contact. -/
theorem c2_both_sources_rejected (jp : String → Except String Json)
    (rf : String → Except String String) (load : LoadResult) (path : String)
    (it : String → String → Json → Except String (Json × List Json))
    (sn tn s f : String) (hs : s ≠ "") :
    invoke_mcp_tool jp rf load path it sn tn (some s) (some f)
      = .exit 5 "Use either --args or --args-file, not both." := by
  unfold invoke_mcp_tool
  simp [truthyOptStr, truthyOptPath, hs]

/-- C2 witness: the amended rejection at a concrete invocation. -/
theorem c2_both_sources_rejected_witness :
    invoke_mcp_tool jsonParseStub readFileStub loadStub "secrets.toml" invokeToolStub
      "svc" "echo" (some "\x7b\x7d") (some "a.json")
      = .exit 5 "Use either --args or --args-file, not both." :=
  c2_both_sources_rejected jsonParseStub readFileStub loadStub "secrets.toml" invokeToolStub
    "svc" "echo" "\x7b\x7d" "a.json" (by decide)

/-- C9: supplying `--args` as the empty string is the same as omitting
it — with a file also supplied the both-sources rejection does not
trigger and the file is used; alone, the empty string behaves like an
absent option; and when the file reads and parses successfully its
parsed object is the payload. -/
theorem c9_empty_args_treated_as_absent (jp : String → Except String Json)
    (rf : String → Except String String) (load : LoadResult) (path : String)
    (it : String → String → Json → Except String (Json × List Json)) (sn tn : String) :
    (∀ f, invoke_mcp_tool jp rf load path it sn tn (some "") (some f)
        = invoke_mcp_tool jp rf load path it sn tn none (some f))
    ∧ invoke_mcp_tool jp rf load path it sn tn (some "") none
        = invoke_mcp_tool jp rf load path it sn tn none none
    ∧ (∀ f contents j, rf f = .ok contents → jp contents = .ok j →
        payloadOf jp rf (some "") (some f) = .ok j) := by
  refine ⟨fun f => rfl, rfl, fun f contents j hrf hjp => ?_⟩
  unfold payloadOf
  simp [truthyOptStr, truthyOptPath, hrf, hjp]

/-- C9 witness: the empty-string behaviour at a concrete invocation. -/
theorem c9_empty_args_witness :
    invoke_mcp_tool jsonParseStub readFileStub loadStub "secrets.toml" invokeToolStub
      "svc" "echo" (some "") (some "a.json")
      = invoke_mcp_tool jsonParseStub readFileStub loadStub "secrets.toml" invokeToolStub
        "svc" "echo" none (some "a.json")
    ∧ payloadOf jsonParseStub readFileStub (some "") (some "a.json") = .ok (Json.obj []) :=
  ⟨(c9_empty_args_treated_as_absent jsonParseStub readFileStub loadStub "secrets.toml"
      invokeToolStub "svc" "echo").1 "a.json",
   (c9_empty_args_treated_as_absent jsonParseStub readFileStub loadStub "secrets.toml"
      invokeToolStub "svc" "echo").2.2 "a.json" "\x7b\x7d" (Json.obj []) (by rfl) (by rfl)⟩

/-- C10: with neither `--args` nor `--args-file` supplied, the
invocation does not fail for lack of arguments: once the configuration
loads and the service is known, the outcome is exactly the client call
with the empty object as payload. -/
theorem c10_no_args_empty_payload (jp : String → Except String Json)
    (rf : String → Except String String) (load : LoadResult) (path : String)
    (it : String → String → Json → Except String (Json × List Json)) (sn tn : String)
    (configs : List (String × MCPServerSecrets))
    (hload : load_mcp_configs load path = .ok configs)
    (hhas : hasService configs sn = true) :
    invoke_mcp_tool jp rf load path it sn tn none none
      = clientStep (it sn tn (Json.obj [])) := by
  unfold invoke_mcp_tool
  simp [truthyOptStr, truthyOptPath, payloadOf, hload, hhas]

/-- C10 witness: a concrete no-argument invocation reaches the client
with the empty payload. -/
theorem c10_no_args_empty_payload_witness :
    invoke_mcp_tool jsonParseStub readFileStub loadStub "secrets.toml" invokeToolStub
      "svc" "echo" none none
      = clientStep (invokeToolStub "svc" "echo" (Json.obj [])) :=
  c10_no_args_empty_payload jsonParseStub readFileStub loadStub "secrets.toml" invokeToolStub
    "svc" "echo" [("svc", sampleService)] (by rfl) (by decide)

/-- C1: for a service name absent from the loaded mapping, both
`list_mcp_tools` and `invoke_mcp_tool` exit with the unknown-service
message — which carries the comma-joined, sorted list of known names —
uniformly in the client oracles, so no connection is ever attempted. -/
theorem c1_unknown_service_rejected (load : LoadResult) (path : String)
    (lt : String → Except String (List MCPTool))
    (jp : String → Except String Json) (rf : String → Except String String)
    (it : String → String → Json → Except String (Json × List Json))
    (sn tn : String) (args args_file : Option String) (payload : Json)
    (configs : List (String × MCPServerSecrets))
    (hload : load_mcp_configs load path = .ok configs)
    (habsent : hasService configs sn = false)
    (hguard : (truthyOptStr args && truthyOptPath args_file) = false)
    (hpayload : payloadOf jp rf args args_file = .ok payload) :
    list_mcp_tools load path lt sn = .exit 4 (unknownServiceMessage sn configs)
    ∧ invoke_mcp_tool jp rf load path it sn tn args args_file
        = .exit 9 (unknownServiceMessage sn configs) := by
  constructor
  · unfold list_mcp_tools
    simp [hload, habsent]
  · unfold invoke_mcp_tool
    simp [hguard, hpayload, hload, habsent]

/-- C1 witness: a concrete absent service name is rejected by both
operations with the message listing the known names. -/
theorem c1_unknown_service_witness :
    list_mcp_tools loadStub "secrets.toml" listToolsStub "missing"
      = .exit 4 (unknownServiceMessage "missing" [("svc", sampleService)])
    ∧ invoke_mcp_tool jsonParseStub readFileStub loadStub "secrets.toml" invokeToolStub
        "missing" "echo" none none
      = .exit 9 (unknownServiceMessage "missing" [("svc", sampleService)]) :=
  c1_unknown_service_rejected loadStub "secrets.toml" listToolsStub jsonParseStub
    readFileStub invokeToolStub "missing" "echo" none none (Json.obj [])
    [("svc", sampleService)] (by rfl) (by decide) (by rfl) (by rfl)

/-- C5: a payload that fails to parse as JSON — inline or from a
readable file — makes the invocation exit with the parse error in the
message (code 6 inline, code 7 from a file), uniformly in the
secrets-loading outcome and the client oracle, so the rejection
precedes any secrets loading or service contact. -/
theorem c5_malformed_json_rejected :
    (∀ (jp : String → Except String Json) (rf : String → Except String String)
        (load : LoadResult) (path : String)
        (it : String → String → Json → Except String (Json × List Json))
        (sn tn s e : String), s ≠ "" → jp s = .error e →
      invoke_mcp_tool jp rf load path it sn tn (some s) none
        = .exit 6 ("Invalid JSON for --args: " ++ e))
    ∧ (∀ (jp : String → Except String Json) (rf : String → Except String String)
        (load : LoadResult) (path : String)
        (it : String → String → Json → Except String (Json × List Json))
        (sn tn f contents e : String), rf f = .ok contents → jp contents = .error e →
      invoke_mcp_tool jp rf load path it sn tn none (some f)
        = .exit 7 ("Invalid JSON in file " ++ f ++ ": " ++ e)) := by
  constructor
  · intro jp rf load path it sn tn s e hs hjp
    unfold invoke_mcp_tool payloadOf
    simp [truthyOptStr, truthyOptPath, hs, hjp]
  · intro jp rf load path it sn tn f contents e hrf hjp
    unfold invoke_mcp_tool payloadOf
    simp [truthyOptStr, truthyOptPath, hrf, hjp]

/-- C5 witness: concrete malformed inline and file payloads are
rejected with the parse error in the message. -/
theorem c5_malformed_json_witness :
    invoke_mcp_tool jsonParseStub readFileStub loadStub "secrets.toml" invokeToolStub
      "svc" "echo" (some "notjson") none
      = .exit 6 ("Invalid JSON for --args: " ++ "could not parse: notjson")
    ∧ invoke_mcp_tool jsonParseStub readFileStub loadStub "secrets.toml" invokeToolStub
      "svc" "echo" none (some "bad.json")
      = .exit 7 ("Invalid JSON in file " ++ "bad.json" ++ ": " ++ "could not parse: notjson") :=
  ⟨c5_malformed_json_rejected.1 jsonParseStub readFileStub loadStub "secrets.toml"
      invokeToolStub "svc" "echo" "notjson" "could not parse: notjson" (by decide) (by rfl),
   c5_malformed_json_rejected.2 jsonParseStub readFileStub loadStub "secrets.toml"
      invokeToolStub "svc" "echo" "bad.json" "notjson" "could not parse: notjson"
      (by rfl) (by rfl)⟩

/-- C6: a secrets source that loads but configures zero services exits
with code 3 and the no-services message — never a successful mapping —
while a missing source exits with code 2 and a parse failure
propagates as an uncaught error, so the three outcomes are pairwise
distinguishable. -/
theorem c6_no_services_distinguishable (path m : String) :
    load_mcp_configs (.ok []) path = .exit 3 (noServicesMessage path)
    ∧ load_mcp_configs (.fileNotFound m) path = .exit 2 m
    ∧ load_mcp_configs (.parseFailure m) path = .uncaught m
    ∧ (∀ servers, load_mcp_configs (.ok []) path ≠ .ok servers)
    ∧ (∀ m2, load_mcp_configs (.ok []) path ≠ load_mcp_configs (.fileNotFound m2) path)
    ∧ (∀ m2, load_mcp_configs (.ok []) path ≠ load_mcp_configs (.parseFailure m2) path) := by
  refine ⟨rfl, rfl, rfl, fun servers => ?_, fun m2 => ?_, fun m2 => ?_⟩
  · simp [load_mcp_configs]
  · simp [load_mcp_configs]
  · simp [load_mcp_configs]

/-- C6 witness: the three loading outcomes at concrete inputs. -/
theorem c6_no_services_witness :
    load_mcp_configs (.ok []) "secrets.toml" = .exit 3 (noServicesMessage "secrets.toml")
    ∧ (∀ servers, load_mcp_configs (.ok []) "secrets.toml" ≠ .ok servers) :=
  ⟨(c6_no_services_distinguishable "secrets.toml" "boom").1,
   (c6_no_services_distinguishable "secrets.toml" "boom").2.2.2.1⟩

/-- C4: the five failure scenarios of the invoke path — no services
configured, unknown service, both argument sources given, malformed
JSON (inline code 6, file code 7) and unreadable file — each exit with
their own code, and the codes 3, 9, 5, 6, 7, 8 are pairwise distinct,
so a caller can tell the outcomes apart. -/
theorem c4_error_kinds_distinct :
    (∀ (jp : String → Except String Json) (rf : String → Except String String)
        (path : String)
        (it : String → String → Json → Except String (Json × List Json)) (sn tn : String),
      invoke_mcp_tool jp rf (.ok []) path it sn tn none none
        = .exit 3 (noServicesMessage path))
    ∧ (∀ (jp : String → Except String Json) (rf : String → Except String String)
        (load : LoadResult) (path : String)
        (it : String → String → Json → Except String (Json × List Json)) (sn tn : String)
        (configs : List (String × MCPServerSecrets)),
      load_mcp_configs load path = .ok configs → hasService configs sn = false →
      invoke_mcp_tool jp rf load path it sn tn none none
        = .exit 9 (unknownServiceMessage sn configs))
    ∧ (∀ (jp : String → Except String Json) (rf : String → Except String String)
        (load : LoadResult) (path : String)
        (it : String → String → Json → Except String (Json × List Json)) (sn tn s f : String),
      s ≠ "" →
      invoke_mcp_tool jp rf load path it sn tn (some s) (some f)
        = .exit 5 "Use either --args or --args-file, not both.")
    ∧ (∀ (jp : String → Except String Json) (rf : String → Except String String)
        (load : LoadResult) (path : String)
        (it : String → String → Json → Except String (Json × List Json)) (sn tn s e : String),
      s ≠ "" → jp s = .error e →
      invoke_mcp_tool jp rf load path it sn tn (some s) none
        = .exit 6 ("Invalid JSON for --args: " ++ e))
    ∧ (∀ (jp : String → Except String Json) (rf : String → Except String String)
        (load : LoadResult) (path : String)
        (it : String → String → Json → Except String (Json × List Json)) (sn tn f contents e : String),
      rf f = .ok contents → jp contents = .error e →
      invoke_mcp_tool jp rf load path it sn tn none (some f)
        = .exit 7 ("Invalid JSON in file " ++ f ++ ": " ++ e))
    ∧ (∀ (jp : String → Except String Json) (rf : String → Except String String)
        (load : LoadResult) (path : String)
        (it : String → String → Json → Except String (Json × List Json)) (sn tn f e : String),
      rf f = .error e →
      invoke_mcp_tool jp rf load path it sn tn none (some f)
        = .exit 8 ("Failed to read arguments file " ++ f ++ ": " ++ e))
    ∧ List.Nodup [3, 9, 5, 6, 7, 8] := by
  refine ⟨?_, ?_, ?_, ?_, ?_, ?_, by decide⟩
  · intro jp rf path it sn tn
    unfold invoke_mcp_tool payloadOf
    simp [truthyOptStr, truthyOptPath, load_mcp_configs]
  · intro jp rf load path it sn tn configs hload habsent
    unfold invoke_mcp_tool payloadOf
    simp [truthyOptStr, truthyOptPath, hload, habsent]
  · intro jp rf load path it sn tn s f hs
    unfold invoke_mcp_tool
    simp [truthyOptStr, truthyOptPath, hs]
  · intro jp rf load path it sn tn s e hs hjp
    unfold invoke_mcp_tool payloadOf
    simp [truthyOptStr, truthyOptPath, hs, hjp]
  · intro jp rf load path it sn tn f contents e hrf hjp
    unfold invoke_mcp_tool payloadOf
    simp [truthyOptStr, truthyOptPath, hrf, hjp]
  · intro jp rf load path it sn tn f e hrf
    unfold invoke_mcp_tool payloadOf
    simp [truthyOptStr, truthyOptPath, hrf]

/-- C4 witness: each of the six failure scenarios at a concrete
invocation, exiting with its own code. -/
theorem c4_error_kinds_witness :
    invoke_mcp_tool jsonParseStub readFileStub (.ok []) "secrets.toml" invokeToolStub
      "svc" "echo" none none = .exit 3 (noServicesMessage "secrets.toml")
    ∧ invoke_mcp_tool jsonParseStub readFileStub loadStub "secrets.toml" invokeToolStub
      "missing" "echo" none none
      = .exit 9 (unknownServiceMessage "missing" [("svc", sampleService)])
    ∧ invoke_mcp_tool jsonParseStub readFileStub loadStub "secrets.toml" invokeToolStub
      "svc" "echo" (some "\x7b\x7d") (some "a.json")
      = .exit 5 "Use either --args or --args-file, not both."
    ∧ invoke_mcp_tool jsonParseStub readFileStub loadStub "secrets.toml" invokeToolStub
      "svc" "echo" (some "notjson") none
      = .exit 6 ("Invalid JSON for --args: " ++ "could not parse: notjson")
    ∧ invoke_mcp_tool jsonParseStub readFileStub loadStub "secrets.toml" invokeToolStub
      "svc" "echo" none (some "bad.json")
      = .exit 7 ("Invalid JSON in file " ++ "bad.json" ++ ": " ++ "could not parse: notjson")
    ∧ invoke_mcp_tool jsonParseStub readFileStub loadStub "secrets.toml" invokeToolStub
      "svc" "echo" none (some "gone.json")
      = .exit 8 ("Failed to read arguments file " ++ "gone.json" ++ ": " ++ "no such file: gone.json") :=
  ⟨c4_error_kinds_distinct.1 jsonParseStub readFileStub "secrets.toml" invokeToolStub "svc" "echo",
   c4_error_kinds_distinct.2.1 jsonParseStub readFileStub loadStub "secrets.toml" invokeToolStub
     "missing" "echo" [("svc", sampleService)] (by rfl) (by decide),
   c4_error_kinds_distinct.2.2.1 jsonParseStub readFileStub loadStub "secrets.toml" invokeToolStub
     "svc" "echo" "\x7b\x7d" "a.json" (by decide),
   c4_error_kinds_distinct.2.2.2.1 jsonParseStub readFileStub loadStub "secrets.toml" invokeToolStub
     "svc" "echo" "notjson" "could not parse: notjson" (by decide) (by rfl),
   c4_error_kinds_distinct.2.2.2.2.1 jsonParseStub readFileStub loadStub "secrets.toml" invokeToolStub
     "svc" "echo" "bad.json" "notjson" "could not parse: notjson" (by rfl) (by rfl),
   c4_error_kinds_distinct.2.2.2.2.2.1 jsonParseStub readFileStub loadStub "secrets.toml" invokeToolStub
     "svc" "echo" "gone.json" "no such file: gone.json" (by rfl)⟩

/-- Erase the credential material of a service entry, keeping name,
transport and url. -/
def scrubAuth (s : MCPServerSecrets) : MCPServerSecrets :=
  { s with auth := none }

/-- C7: the `mcp services` listing is a function only of each entry
name, transport and url: two loaded stores that agree after erasing
every `auth` field produce identical output, so credential material is
never echoed. -/
theorem c7_services_independent_of_auth
    (servers1 servers2 : List (String × MCPServerSecrets)) (path : String)
    (h : servers1.map (fun kv => (kv.1, scrubAuth kv.2))
        = servers2.map (fun kv => (kv.1, scrubAuth kv.2))) :
    list_mcp_services (.ok servers1) path = list_mcp_services (.ok servers2) path := by
  have hlines : servers1.map (fun kv => renderServiceLine kv.2)
      = servers2.map (fun kv => renderServiceLine kv.2) := by
    have hmm : ∀ (l : List (String × MCPServerSecrets)),
        l.map (fun kv => renderServiceLine kv.2)
          = (l.map (fun kv => (kv.1, scrubAuth kv.2))).map (fun kv => renderServiceLine kv.2) := by
      intro l
      rw [List.map_map]
      rfl
    rw [hmm servers1, hmm servers2, h]
  cases servers1 with
  | nil =>
    cases servers2 with
    | nil => rfl
    | cons b bs => simp at h
  | cons a as =>
    cases servers2 with
    | nil => simp at h
    | cons b bs =>
      unfold list_mcp_services load_mcp_configs
      simp only [List.isEmpty_cons]
      simpa using hlines

/-- C7 witness: two concrete stores that differ only in the `auth`
field produce the same listing. -/
theorem c7_services_auth_witness :
    list_mcp_services
      (.ok [("svc", { service_name := "svc", transport := "http",
                      url := "https://svc/mcp", auth := some "bearer-token" })])
      "secrets.toml"
      = list_mcp_services (.ok [("svc", sampleService)]) "secrets.toml" :=
  c7_services_independent_of_auth
    [("svc", { service_name := "svc", transport := "http",
               url := "https://svc/mcp", auth := some "bearer-token" })]
    [("svc", sampleService)] "secrets.toml" (by decide)

/-- C3: after a client scope runs any body — whether it ends in a
value or in an error — every connector recorded in the final state is
closed; moreover closing is idempotent and closing an already-closed
connector leaves it unchanged rather than failing. -/
theorem c3_scope_closes_connectors {E A : Type}
    (body : ClientState → Except E A × ClientState) (init : ClientState) :
    (∀ c ∈ (runClientScope body init).2.opened, c.closed = true)
    ∧ (∀ c : Connector, Connector.close (Connector.close c) = Connector.close c)
    ∧ (∀ c : Connector, c.closed = true → Connector.close c = c) := by
  refine ⟨?_, fun c => rfl, ?_⟩
  · intro c hc
    unfold runClientScope closeAll at hc
    simp only [List.mem_map] at hc
    obtain ⟨a, _, rfl⟩ := hc
    rfl
  · intro c hc
    cases c with
    | mk service closed => cases hc; rfl

/-- A scope body used in witnesses: it opens one connector and then
fails mid-operation. -/
def failingBody : ClientState → Except String Json × ClientState :=
  fun s => (.error "mid-operation failure",
            { opened := { service := "svc", closed := false } :: s.opened })

/-- C3 witness: a scope whose body opens a connector and then raises
still ends with every opened connector closed, and re-closing a
closed connector is a no-op. -/
theorem c3_scope_closes_witness :
    (∀ c ∈ (runClientScope failingBody { opened := [] }).2.opened, c.closed = true)
    ∧ Connector.close { service := "svc", closed := true } = { service := "svc", closed := true } :=
  ⟨(c3_scope_closes_connectors failingBody { opened := [] }).1,
   (c3_scope_closes_connectors failingBody { opened := [] }).2.2
     { service := "svc", closed := true } rfl⟩

/-- Splitting a content list at its first text-bearing item returns
that item and all remaining items in their original order. -/
theorem extractFirstText_split (pre post : List ContentItem) (t : ContentItem)
    (hpre : ∀ x ∈ pre, x.isText = false) (ht : t.isText = true) :
    extractFirstText (pre ++ t :: post) = some (t, pre ++ post) := by
  induction pre with
  | nil => simp [extractFirstText, ht]
  | cons x xs ih =>
    have hx : x.isText = false := hpre x (by simp)
    have hxs : ∀ y ∈ xs, y.isText = false := fun y hy => hpre y (by simp [hy])
    simp [extractFirstText, hx, ih hxs]

/-- C8: a single unstructured textual payload normalizes to that text
with no attachments, and a content list whose first text-bearing item
is `t` normalizes to `t` as primary with every remaining item, in
original order, as attachments. -/
theorem c8_normalize_shapes :
    (∀ s, normalizeResponse (.plainText s) = .ok (.text s, []))
    ∧ (∀ (pre post : List ContentItem) (t : ContentItem),
        (∀ x ∈ pre, x.isText = false) → t.isText = true →
        normalizeResponse (.contentList (pre ++ t :: post)) = .ok (t, pre ++ post)) := by
  refine ⟨fun s => rfl, ?_⟩
  intro pre post t hpre ht
  simp [normalizeResponse, extractFirstText_split pre post t hpre ht]

/-- C8 witness: a concrete plain-text response and a concrete mixed
content list normalize as stated. -/
theorem c8_normalize_witness :
    normalizeResponse (.plainText "hello") = .ok (.text "hello", [])
    ∧ normalizeResponse (.contentList
        [.blob "b1", .text "primary", .blob "b2", .text "extra"])
      = .ok (.text "primary", [.blob "b1", .blob "b2", .text "extra"]) :=
  ⟨c8_normalize_shapes.1 "hello",
   c8_normalize_shapes.2 [.blob "b1"] [.blob "b2", .text "extra"] (.text "primary")
     (by decide) (by decide)⟩
